import Mathlib

/-!
# Verification of the sfss manifest hash-resolution engine

Shallow embedding of the hash-resolution core of the repository:
`crates/sprinkles/src/hash.rs` (the `Hash` value model, `HashMode`
resolver, and `Hash::get_for_app` pipeline) and
`crates/manifest-hash/src/formats/text.rs` (the text extractor).

External collaborators (the `regex` engine's matching, the HTTP client,
`Url::parse`, and the JSON/XML/RDF format backends whose sources are not
part of this crate slice) are represented as explicit function
parameters, so every embedded function is a pure Lean function of its
inputs and of those collaborators.  Rust `String::len` is byte length,
embedded as `String.utf8ByteSize`.
-/

set_option maxRecDepth 4096

namespace Sfss

/-- Rust `String::len()`: the UTF-8 byte length of the string. -/
def rustLen (s : String) : Nat := s.utf8ByteSize

/-- `HashType` from `crates/sprinkles/src/hash.rs`: the four supported
digest algorithms.  `SHA256` is the `#[default]` variant. -/
inductive HashType : Type
  | SHA512
  | SHA256
  | SHA1
  | MD5
  deriving DecidableEq, Repr

instance : Inhabited HashType := ⟨HashType.SHA256⟩

/-- `Hash` from `crates/sprinkles/src/hash.rs`: a hex digest string
together with its algorithm tag. -/
structure Hash : Type where
  hash : String
  hash_type : HashType
  deriving DecidableEq, Repr

/-- `HashError` from `crates/sprinkles/src/hash.rs` (variants carrying
foreign error payloads are collapsed to bare constructors). -/
inductive HashError : Type
  | TextError
  | JsonError
  | RDFError
  | XMLError
  | SerdeJson
  | InvalidUrl
  | HashDownloading
  | NotFound
  | UrlNotFound
  | InvalidHash
  | MissingAutoupdate
  | MissingAutoupdateConfig
  | HashMode
  | MissingHashExtraction
  | HashExtractionUrl
  | MissingExtraction
  | MissingFosshubCaptures
  | MissingSourceforgeCaptures
  | ErrorStatus
  deriving DecidableEq, Repr

/-- `impl TryFrom<&String> for HashType` (hash.rs lines 123–135):
the algorithm is inferred from the byte length of the hex string
(`match value.len()`, translated as the equivalent chain of equality
tests); any unrecognised length is `HashError::InvalidHash`. -/
def HashType.tryFrom (value : String) : Except HashError HashType :=
  if rustLen value = 64 then .ok HashType.SHA256
  else if rustLen value = 40 then .ok HashType.SHA1
  else if rustLen value = 32 then .ok HashType.MD5
  else if rustLen value = 128 then .ok HashType.SHA512
  else .error HashError.InvalidHash

/-- `HashMode` from `crates/sprinkles/src/hash.rs` (lines 137–148):
the resolved hash-acquisition strategy. -/
inductive HashMode : Type
  | HashUrl
  | Download
  | Extract (regex : String)
  | Json (path : String)
  | Xpath (path : String)
  | Fosshub
  | Metalink
  | Rdf
  | Sourceforge
  deriving DecidableEq, Repr

/-- The manifest-side `HashMode` enum (`packages::manifest::HashMode`,
imported as `ManifestHashMode` in hash.rs).  Modelled from the spec:
the manifest crate's source is not in the slice; the spec (§3, §4.4)
lists the explicit tags `Download`/`Fosshub`/`Sourceforge`/`Metalink`/
`Rdf`, and the `_ => None` arm of `from_autoupdate_config` shows the
enum has further variants (the extraction-shaped tags). -/
inductive ManifestHashMode : Type
  | Download
  | Extract
  | Json
  | Xpath
  | Rdf
  | Fosshub
  | Sourceforge
  | Metalink
  deriving DecidableEq, Repr

/-- The manifest's hash-extraction object (`packages::manifest::
HashExtraction`).  Modelled from the spec (§3, §6): an object with
optional `url`, `mode`, and location fields `regex`/`find`,
`jsonpath`/`jp`, `xpath`, exactly the fields hash.rs reads. -/
structure HashExtraction : Type where
  url : Option String := none
  mode : Option ManifestHashMode := none
  regex : Option String := none
  find : Option String := none
  jsonpath : Option String := none
  jp : Option String := none
  xpath : Option String := none
  deriving DecidableEq, Repr

/-- `packages::manifest::HashExtractionOrArrayOfHashExtractions`.
Modelled from the spec (§3): the `hash` field is either a bare URL
string, a hash-extraction object, or an array of such objects. -/
inductive HashExtractionOrArrayOfHashExtractions : Type
  | Url (url : String)
  | HashExtraction (cfg : Sfss.HashExtraction)
  | ExtractionArray (cfgs : List Sfss.HashExtraction)
  deriving DecidableEq, Repr

/-- `as_object` on `HashExtractionOrArrayOfHashExtractions`.  Modelled
from the spec/usage in hash.rs: yields the hash-extraction object when
the value is one, `none` otherwise. -/
def HashExtractionOrArrayOfHashExtractions.as_object :
    HashExtractionOrArrayOfHashExtractions → Option Sfss.HashExtraction
  | .HashExtraction cfg => some cfg
  | _ => none

/-- One architecture's autoupdate sub-config (`packages::manifest::
AutoupdateConfig`).  Modelled from the spec (§3, §6): an optional URL
and an optional hash-extraction value. -/
structure AutoupdateConfig : Type where
  url : Option String := none
  hash : Option HashExtractionOrArrayOfHashExtractions := none
  deriving DecidableEq, Repr

/-- The manifest's `autoupdate` section: an optional
architecture-specific sub-config plus the default sub-config.
Modelled from the spec (§3): per-architecture sub-configs merged with
a default at read time.  `architecture` here is the sub-config for the
running architecture, already selected. -/
structure Autoupdate : Type where
  architecture : Option AutoupdateConfig := none
  default_config : AutoupdateConfig := {}
  deriving DecidableEq, Repr

/-- The per-architecture install config (`InstallConfig`); only the
`url` field is read by the hash engine.  Modelled from the spec (§3). -/
structure InstallConfig : Type where
  url : Option String := none
  deriving DecidableEq, Repr

/-- The parts of `Manifest` the hash engine reads.  `architecture` is
the install config for the running architecture (already selected),
merged with `install_config` via `MergeDefaults`. -/
structure Manifest : Type where
  version : String := ""
  architecture : Option InstallConfig := none
  install_config : InstallConfig := {}
  autoupdate : Option Autoupdate := none
  deriving DecidableEq, Repr

/-- `MergeDefaults::merge_default` for install configs.  Modelled from
the spec (§3): "merge is pure and order-preserving: explicit arch field
wins, default fills gaps". -/
def mergeDefaultInstall (arch : Option InstallConfig) (dflt : InstallConfig) :
    InstallConfig :=
  match arch with
  | none => dflt
  | some a => { url := a.url.orElse (fun _ => dflt.url) }

/-- `MergeDefaults::merge_default` for autoupdate configs.  Modelled
from the spec (§3): explicit arch field wins, default fills gaps. -/
def mergeDefaultAutoupdate (arch : Option AutoupdateConfig)
    (dflt : AutoupdateConfig) : AutoupdateConfig :=
  match arch with
  | none => dflt
  | some a =>
    { url := a.url.orElse (fun _ => dflt.url)
      hash := a.hash.orElse (fun _ => dflt.hash) }

/-- `TextError` from `crates/manifest-hash/src/formats/text.rs`. -/
inductive TextError : Type
  | RegexError
  | Base64Error
  deriving DecidableEq, Repr

/-- Left-to-right non-overlapping replacement over a character list,
with a fuel bound for structural recursion (the fuel is the input
length, enough because every step consumes at least one character). -/
def replaceAllAux (pat repl : List Char) : Nat → List Char → List Char
  | 0, s => s
  | _ + 1, [] => []
  | fuel + 1, c :: cs =>
    if pat.isPrefixOf (c :: cs) then
      repl ++ replaceAllAux pat repl fuel ((c :: cs).drop pat.length)
    else
      c :: replaceAllAux pat repl fuel cs

/-- Rust `str::replace(pat, repl)`: replace every non-overlapping
occurrence of `pat`, scanning left to right. -/
def rustReplace (s pat repl : String) : String :=
  if pat = "" then s
  else ⟨replaceAllAux pat.toList repl.toList s.toList.length s.toList⟩

/-- Rust `str::to_lowercase()` (ASCII-relevant part). -/
def rustToLower (s : String) : String := ⟨s.toList.map Char.toLower⟩

/-- The characters the `regex` crate's `escape` treats as meta
characters (modelling `regex::escape`, used by literal-mode
substitution). -/
def isRegexMeta (c : Char) : Bool :=
  c ∈ ['\\', '.', '+', '*', '?', '(', ')', '|', '[', ']', '\x7b', '\x7d',
    '^', '$', '#', '&', '-', '~']

/-- Escape every regex meta character of `s` with a backslash
(modelling `regex::escape`). -/
def regexEscape (s : String) : String :=
  s.toList.foldl
    (fun acc c => if isRegexMeta c then (acc.push '\\').push c else acc.push c) ""

/-- The `Substitute` trait's `into_substituted(params, regex_escape)`.
Modelled from the spec (§4.1): each placeholder `$name` is replaced by
the mapped value, escaped when `literal` is set; unknown names are left
untouched.  The parameter map is an ordered association list (the
source's `HashMap` iteration order is immaterial here because no key's
placeholder occurs inside another entry's placeholder or value). -/
def intoSubstituted (template : String) (params : List (String × String))
    (literal : Bool) : String :=
  params.foldl
    (fun acc p =>
      rustReplace acc ("$" ++ p.1) (if literal then regexEscape p.2 else p.2))
    template

/-- `RegexTemplates::into_substitute_map()` from text.rs (lines 20–58):
the internal regex-fragment names and their raw (unescaped)
character-class values, in the enum's declaration order. -/
def regexTemplates : List (String × String) :=
  [("md5", "([a-fA-F0-9]\x7b32\x7d)"),
   ("sha1", "([a-fA-F0-9]\x7b40\x7d)"),
   ("sha256", "([a-fA-F0-9]\x7b64\x7d)"),
   ("sha512", "([a-fA-F0-9]\x7b128\x7d)"),
   ("checksum", "([a-fA-F0-9]\x7b32,128\x7d)"),
   ("base64", "([a-zA-Z0-9+\\/=]\x7b24,88\x7d)")]

/-- The default location pattern used when the expression is empty
(text.rs line 68). -/
def defaultTextPattern : String := "^\\s*([a-fA-F0-9]+)\\s*$"

/-- The regex the text extractor matches against the source: an empty
location expression falls back to `defaultTextPattern`; the fragment
names are substituted first with raw values, then the caller-supplied
substitutions in literal (escaped) mode (text.rs lines 67–84). -/
def buildPattern (regex : String) (substitutions : List (String × String)) :
    String :=
  let regex := if regex = "" then defaultTextPattern else regex
  intoSubstituted (intoSubstituted regex regexTemplates false) substitutions true

/-- The filename-correlation fallback pattern (text.rs lines 128–134),
after literal substitution of the caller's map. -/
def filenamePattern (substitutions : List (String × String)) : String :=
  intoSubstituted
    "([a-fA-F0-9]\x7b32,128\x7d)[\\x20\\t]+.*`$basename(?:[\\x20\\t]+\\d+)?"
    substitutions true

/-- The metalink `<hash ...>` fallback pattern (text.rs line 144),
requiring exactly 64 hex characters. -/
def metalinkPattern : String := "<hash[^>]+>([a-fA-F0-9]\x7b64\x7d)"

/-- A base64-alphabet character: `[A-Za-z0-9+/]`. -/
def isB64Char (c : Char) : Bool :=
  c.isAlpha || c.isDigit || c = '+' || c = '/'

/-- A hex character: `[a-fA-F0-9]`. -/
def isHexChar (c : Char) : Bool :=
  c.isDigit || ('a' ≤ c && c ≤ 'f') || ('A' ≤ c && c ≤ 'F')

/-- Full match of the anchored base64 shape regex from text.rs
(lines 95–98): zero or more groups of four alphabet characters followed
by a final group of four (`xx==`, `xxx=`, or `xxxx`). -/
def base64RegexIsMatch (s : String) : Bool :=
  let l := s.toList
  let n := l.length
  if n % 4 = 0 && n > 0 then
    let body := l.take (n - 4)
    let last := l.drop (n - 4)
    body.all isB64Char &&
    (match last with
     | [a, b, '=', '='] => isB64Char a && isB64Char b
     | [a, b, c, '='] => isB64Char a && isB64Char b && isB64Char c
     | [a, b, c, d] => isB64Char a && isB64Char b && isB64Char c && isB64Char d
     | _ => false)
  else false

/-- Full match of the `invalid_base64` regex `^[a-fA-F0-9]+$` from
text.rs (lines 101–102): the string is pure hex. -/
def pureHexRegexIsMatch (s : String) : Bool :=
  !s.isEmpty && s.toList.all isHexChar

/-- The 6-bit value of a standard-alphabet base64 character. -/
def b64Val (c : Char) : Option Nat :=
  if 'A' ≤ c && c ≤ 'Z' then some (c.toNat - 'A'.toNat)
  else if 'a' ≤ c && c ≤ 'z' then some (c.toNat - 'a'.toNat + 26)
  else if '0' ≤ c && c ≤ '9' then some (c.toNat - '0'.toNat + 52)
  else if c = '+' then some 62
  else if c = '/' then some 63
  else none

/-- Decode base64 quartets to bytes (modelling the `base64` crate's
`BASE64_STANDARD.decode`: canonical padding required, trailing bits
must be zero, any other shape is a decode error). -/
def decodeB64Groups : List Char → Option (List Nat)
  | [] => some []
  | a :: b :: c :: d :: rest =>
    match b64Val a, b64Val b with
    | some va, some vb =>
      if c = '=' then
        if d = '=' && rest.isEmpty then
          if vb % 16 = 0 then some [va * 4 + vb / 16] else none
        else none
      else
        match b64Val c with
        | some vc =>
          if d = '=' then
            if rest.isEmpty then
              if vc % 4 = 0 then
                some [va * 4 + vb / 16, (vb % 16) * 16 + vc / 4]
              else none
            else none
          else
            match b64Val d with
            | some vd =>
              (decodeB64Groups rest).map fun tail =>
                (va * 4 + vb / 16) :: ((vb % 16) * 16 + vc / 4) ::
                  ((vc % 4) * 64 + vd) :: tail
            | none => none
        | none => none
    | _, _ => none
  | _ => none

/-- `BASE64_STANDARD.decode` on a string. -/
def base64Decode (s : String) : Option (List Nat) :=
  decodeB64Groups s.toList

/-- Rust `format!("{byte:x}")`: lowercase hex with NO zero padding
(note: `Hash::compute` in hash.rs uses `{byte:02x}`, the text extractor
at text.rs line 113 uses `{byte:x}`). -/
def hexNoPad (b : Nat) : String := (Nat.toDigits 16 b).asString

/-- The base64-conversion branch of `parse_text` (text.rs lines
94–126): a second match that matches the base64 shape and is not
pure hex (or has a known hash length) is base64-decoded and rendered
byte-by-byte with `{byte:x}`; a failed decode keeps the original
string; a pure-hex-shaped non-hash-length string yields `None`. -/
def convertBase64Hash (hash : String) : Option String :=
  if base64RegexIsMatch hash then
    if !pureHexRegexIsMatch hash || [32, 40, 64, 128].contains (rustLen hash) then
      some (match base64Decode hash with
        | some decoded =>
          decoded.foldl (fun acc byte => acc ++ hexNoPad byte) ""
        | none => hash)
    else none
  else none

/-- The `regex` crate's matching, as seen by `parse_text`: `findAll
pattern haystack` is the list of whole-match strings of
`Regex::new(pattern)?.find_iter(haystack)` in order, or `none` when the
pattern fails to compile. -/
structure RegexEngine : Type where
  findAll : String → String → Option (List String)

/-- `parse_text` from `crates/manifest-hash/src/formats/text.rs`
(lines 60–158): build the substituted pattern, collect all matches with
internal spaces stripped; a second match goes through the base64
conversion branch; otherwise fall through to the filename-correlation
pattern and then the metalink pattern (each also taking its second
match); the result is lowercased. -/
def parse_text (E : RegexEngine) (source : String)
    (substitutions : List (String × String)) (regex : String) :
    Except TextError (Option String) :=
  match E.findAll (buildPattern regex substitutions) source with
  | none => .error .RegexError
  | some ms =>
    let hashes := ms.map (fun h => rustReplace h " " "")
    let hash : Except TextError (Option String) :=
      match hashes.get? 1 with
      | some h => .ok (convertBase64Hash h)
      | none =>
        match E.findAll (filenamePattern substitutions) source with
        | none => .error .RegexError
        | some fms =>
          match fms.get? 1 with
          | some h => .ok (some h)
          | none =>
            match E.findAll metalinkPattern source with
            | none => .error .RegexError
            | some mms => .ok (mms.get? 1)
    hash.map (fun o => o.map rustToLower)

/-- `Hash::from_text` (hash.rs lines 445–455): a missing result is
`NotFound`; the raw hash string is validated through
`HashType::try_from`. -/
def from_text (E : RegexEngine) (source : String)
    (substitutions : List (String × String)) (regex : String) :
    Except HashError Hash :=
  match parse_text E source substitutions regex with
  | .error _ => .error .TextError
  | .ok none => .error .NotFound
  | .ok (some hash) =>
    match HashType.tryFrom hash with
    | .error e => .error e
    | .ok hash_type => .ok ⟨hash, hash_type⟩

/-- Outcome of a Rust computation that may `panic!` / `unwrap()` /
`todo!`. -/
inductive PanicOr (α : Type) : Type
  | panicked (msg : String)
  | value (a : α)
  deriving DecidableEq, Repr

/-- `HashMode::from_autoupdate_config` (hash.rs lines 193–241).
A missing `hash` field yields `none` (the `?` on `config.hash`); a bare
URL yields `Download`; a hash-extraction object is inspected: the
explicit `mode` tag first (only the five mapped tags count), then
`regex`, `find`, `jsonpath`, `jp`, `xpath` in that order, and `HashUrl`
when nothing matched; an array of extractions hits the
`todo!("Handle array of hash extractions")` panic. -/
def HashMode.from_autoupdate_config (config : AutoupdateConfig) :
    PanicOr (Option HashMode) :=
  match config.hash with
  | none => .value none
  | some (.Url _) => .value (some HashMode.Download)
  | some (.HashExtraction hash_cfg) =>
    let explicitMode : Option HashMode :=
      hash_cfg.mode.bind fun mode =>
        match mode with
        | ManifestHashMode.Download => some HashMode.Download
        | ManifestHashMode.Fosshub => some HashMode.Fosshub
        | ManifestHashMode.Sourceforge => some HashMode.Sourceforge
        | ManifestHashMode.Metalink => some HashMode.Metalink
        | ManifestHashMode.Rdf => some HashMode.Rdf
        | _ => none
    let mode : Option HashMode :=
      explicitMode.orElse fun _ =>
        match hash_cfg.regex with
        | some regex => some (HashMode.Extract regex)
        | none =>
          match hash_cfg.find with
          | some regex => some (HashMode.Extract regex)
          | none =>
            match hash_cfg.jsonpath with
            | some jsonpath => some (HashMode.Json jsonpath)
            | none =>
              match hash_cfg.jp with
              | some jsonpath => some (HashMode.Json jsonpath)
              | none =>
                match hash_cfg.xpath with
                | some xpath => some (HashMode.Xpath xpath)
                | none => none
    match mode with
    | some m => .value (some m)
    | none => .value (some HashMode.HashUrl)
  | some (.ExtractionArray _) =>
    .panicked "not yet implemented: Handle array of hash extractions"

/-- `HashMode::from_manifest` (hash.rs lines 166–188), parametrised by
the `regex` engine's `is_match` for the fosshub and sourceforge
patterns.  The vendor URL checks run on the merged install URL first;
only afterwards is the autoupdate config consulted, and
`manifest.autoupdate.as_ref().unwrap()` panics when `autoupdate`
is absent. -/
def HashMode.from_manifest (fosshubIsMatch sourceforgeIsMatch : String → Bool)
    (manifest : Manifest) : PanicOr (Option HashMode) :=
  let install_config := mergeDefaultInstall manifest.architecture manifest.install_config
  let vendor : Option HashMode :=
    match install_config.url with
    | some url =>
      if fosshubIsMatch url then some HashMode.Fosshub
      else if sourceforgeIsMatch url then some HashMode.Sourceforge
      else none
    | none => none
  match vendor with
  | some mode => .value (some mode)
  | none =>
    match manifest.autoupdate with
    | none => .panicked "called `Option::unwrap()` on a `None` value"
    | some autoupdate =>
      HashMode.from_autoupdate_config
        (mergeDefaultAutoupdate autoupdate.architecture autoupdate.default_config)

/-- `Hash::from_rdf` (hash.rs lines 430–438), parametrised by the
result of `formats::rdf::parse_xml` (the RDF backend's source is not in
the slice): note the `unwrap_or_default()` — an extracted hash whose
length maps to no algorithm is tagged with the default type (SHA256),
not rejected. -/
def from_rdf (parsed : Except Unit String) : Except HashError Hash :=
  match parsed with
  | .error _ => .error .RDFError
  | .ok hash =>
    let hash_type :=
      match HashType.tryFrom hash with
      | .ok t => t
      | .error _ => HashType.SHA256
    .ok ⟨hash, hash_type⟩

/-- `Hash::from_json` (hash.rs lines 462–473), parametrised by the
composed result of `serde_json::from_slice` and
`formats::json::parse_json` (the JSON backend's source is not in the
slice); the extracted string is validated through `HashType::try_from`. -/
def from_json (parsed : Except HashError String) : Except HashError Hash :=
  match parsed with
  | .error e => .error e
  | .ok hash =>
    match HashType.tryFrom hash with
    | .error e => .error e
    | .ok hash_type => .ok ⟨hash, hash_type⟩

/-- `Hash::find_hash_in_xml` (hash.rs lines 482–491), parametrised by
the result of `formats::xml::parse_xml` (the XML backend's source is
not in the slice); the extracted string is validated through
`HashType::try_from`. -/
def find_hash_in_xml (parsed : Except HashError String) : Except HashError Hash :=
  match parsed with
  | .error e => .error e
  | .ok hash =>
    match HashType.tryFrom hash with
    | .error e => .error e
    | .ok hash_type => .ok ⟨hash, hash_type⟩

/-- Modelled from the spec: `url_ext::UrlExt::strip_fragment` (url_ext
is not in the slice) — remove the `#fragment` part of the URL. -/
def stripFragment (url : String) : String :=
  ⟨url.toList.takeWhile (fun c => c ≠ '#')⟩

/-- Modelled from the spec: `url_ext::UrlExt::strip_filename` (url_ext
is not in the slice) — remove the trailing filename segment, i.e.
everything from the last `/` on (the URL keeps no trailing slash). -/
def stripFilename (url : String) : String :=
  let l := url.toList
  if l.contains '/' then
    ⟨((l.reverse.dropWhile (fun c => c ≠ '/')).drop 1).reverse⟩
  else url

/-- Modelled from the spec: `url_ext::UrlExt::remote_filename` (url_ext
is not in the slice) — the file's remote basename, the text after the
last `/`. -/
def remoteFilename (url : String) : String :=
  ⟨(url.toList.reverse.takeWhile (fun c => c ≠ '/')).reverse⟩

/-- Modelled from the spec (§3, §4.5): the `SubstitutionMap` built
fresh per resolution from the manifest's version and resolved URL
(`append_version` / `append_url`; the substitutions crate is not in the
slice).  Only the entries no theorem below depends on exactly are
elided (`urlNoExt` and friends). -/
def buildSubmap (version url : String) : List (String × String) :=
  [("version", version), ("url", url), ("basename", remoteFilename url)]

/-- The regex appended to the fosshub filename capture
(hash.rs line 302): `.*?"sha256":"([a-fA-F0-9]{64})"`. -/
def fosshubRegexSuffix : String :=
  ".*?\"sha256\":\"([a-fA-F0-9]\x7b64\x7d)\""

/-- The synthesized sourceforge location regex (hash.rs line 334):
`"$basename":.*?"sha1":\s*"([a-fA-F0-9]{40})"`. -/
def sourceforgeHashRegex : String :=
  "\"$basename\":.*?\"sha1\":\\s*\"([a-fA-F0-9]\x7b40\x7d)\""

/-- The external collaborators of `Hash::get_for_app`: the two vendor
regexes' `is_match`/`captures` (named groups `filename`, resp.
`project` and `file`; `none` at either level models a failed capture),
`Url::parse` (returning the parsed URL's serialization, `none` on a
parse error), the blocking HTTP client (`none` models a request
failure), the regex engine used by the text extractor, and the
JSON/XML/RDF format backends applied to the fetched body. -/
structure Ext : Type where
  fosshubIsMatch : String → Bool
  sourceforgeIsMatch : String → Bool
  fosshubFilename : String → Option (Option String)
  sourceforgeCaptures : String → Option (Option String × Option String)
  parseUrl : String → Option String
  fetch : String → Option String
  regex : RegexEngine
  jsonExtract : String → List (String × String) → String → Except HashError String
  xmlExtract : String → List (String × String) → String → Except HashError String
  rdfExtract : String → String → Except Unit String

/-- The source-URL/mode resolution step of `Hash::get_for_app`
(hash.rs lines 290–359): `Fosshub` keeps the manifest URL and appends
the sha256 JSON regex to the captured filename; `Sourceforge` rebuilds
`https://sourceforge.net/projects/{project}/files/{file}`, strips the
fragment and the trailing filename, and uses the sha1 JSON regex; both
downgrade the mode to `Extract(generated_regex)`.  Any other mode takes
its URL from the autoupdate hash-extraction object (substituted with
the submap in non-literal mode) and keeps the mode. -/
def resolveSourceUrl (E : Ext) (hash_mode : HashMode) (manifest_url : String)
    (autoupdate_config : AutoupdateConfig) (submap : List (String × String)) :
    Except HashError (String × HashMode) :=
  match hash_mode with
  | .Fosshub =>
    match E.fosshubFilename manifest_url with
    | none => .error .MissingFosshubCaptures
    | some none => .error .MissingFosshubCaptures
    | some (some filename) =>
      .ok (manifest_url, .Extract (filename ++ fosshubRegexSuffix))
  | .Sourceforge =>
    match E.sourceforgeCaptures manifest_url with
    | none => .error .MissingSourceforgeCaptures
    | some caps =>
      match caps.1 with
      | none => .error .MissingSourceforgeCaptures
      | some project =>
        match caps.2 with
        | none => .error .MissingSourceforgeCaptures
        | some file =>
          let url_string :=
            "https://sourceforge.net/projects/" ++ project ++ "/files/" ++ file
          match E.parseUrl url_string with
          | none => .error .InvalidUrl
          | some parsed_url =>
            .ok (stripFilename (stripFragment parsed_url),
              .Extract sourceforgeHashRegex)
  | _ =>
    match autoupdate_config.hash with
    | none => .error .MissingHashExtraction
    | some hx =>
      match hx.as_object with
      | none => .error .HashExtractionUrl
      | some hash_extraction =>
        match hash_extraction.url with
        | none => .error .UrlNotFound
        | some u =>
          match E.parseUrl (intoSubstituted u submap false) with
          | none => .error .InvalidUrl
          | some url => .ok (url, hash_mode)

/-- `Hash::get_for_app` (hash.rs lines 259–387): check the autoupdate
config exists, resolve the mode via `HashMode::from_manifest`, parse
the merged install URL, build the substitution map, resolve the source
URL (with the vendor rewrite), fetch it, then short-circuit `HashUrl`
(the body is the hash, tagged with the default type, unvalidated), hit
the `todo!` for `Download`, and otherwise dispatch to the format
extractor for the mode (`Metalink` falls into the `unreachable!`). -/
def get_for_app (E : Ext) (manifest : Manifest) : PanicOr (Except HashError Hash) :=
  match manifest.autoupdate with
  | none => .value (.error .MissingAutoupdateConfig)
  | some autoupdate =>
    let autoupdate_config :=
      mergeDefaultAutoupdate autoupdate.architecture autoupdate.default_config
    match HashMode.from_manifest E.fosshubIsMatch E.sourceforgeIsMatch manifest with
    | .panicked msg => .panicked msg
    | .value none => .value (.error .MissingHashExtraction)
    | .value (some hash_mode) =>
      match (mergeDefaultInstall manifest.architecture manifest.install_config).url with
      | none => .value (.error .UrlNotFound)
      | some rawUrl =>
        match E.parseUrl rawUrl with
        | none => .value (.error .InvalidUrl)
        | some manifest_url =>
          let submap := buildSubmap manifest.version manifest_url
          match resolveSourceUrl E hash_mode manifest_url autoupdate_config submap with
          | .error e => .value (.error e)
          | .ok (url, hash_mode) =>
            match E.fetch url with
            | none => .value (.error .HashDownloading)
            | some source =>
              if hash_mode = HashMode.HashUrl then
                .value (.ok ⟨source, HashType.SHA256⟩)
              else if hash_mode = HashMode.Download then
                .panicked "not yet implemented: Download and compute hashes"
              else
                match hash_mode with
                | .Extract regex => .value (from_text E.regex source submap regex)
                | .Xpath xpath =>
                  .value (find_hash_in_xml (E.xmlExtract source submap xpath))
                | .Json json_path =>
                  .value (from_json (E.jsonExtract source submap json_path))
                | .Rdf =>
                  .value (from_rdf (E.rdfExtract source (remoteFilename url)))
                | _ => .panicked "internal error: entered unreachable code"

/-- The length/algorithm invariant the spec claims for every
constructed `Hash`: the hex string's byte length is 32, 40, 64 or 128
and matches the algorithm tag. -/
def hashLengthInvariant (h : Hash) : Prop :=
  (rustLen h.hash = 32 ∧ h.hash_type = HashType.MD5) ∨
  (rustLen h.hash = 40 ∧ h.hash_type = HashType.SHA1) ∨
  (rustLen h.hash = 64 ∧ h.hash_type = HashType.SHA256) ∨
  (rustLen h.hash = 128 ∧ h.hash_type = HashType.SHA512)

end Sfss

/-- C2: for every string of length 32/40/64/128, `HashType::try_from`
returns Ok MD5/SHA1/SHA256/SHA512 respectively; every other length
returns the `InvalidHash` error. -/
theorem Sfss.hashType_tryFrom_spec (s : String) :
    (Sfss.rustLen s = 32 → Sfss.HashType.tryFrom s = .ok Sfss.HashType.MD5) ∧
    (Sfss.rustLen s = 40 → Sfss.HashType.tryFrom s = .ok Sfss.HashType.SHA1) ∧
    (Sfss.rustLen s = 64 → Sfss.HashType.tryFrom s = .ok Sfss.HashType.SHA256) ∧
    (Sfss.rustLen s = 128 → Sfss.HashType.tryFrom s = .ok Sfss.HashType.SHA512) ∧
    (Sfss.rustLen s ≠ 32 → Sfss.rustLen s ≠ 40 → Sfss.rustLen s ≠ 64 →
      Sfss.rustLen s ≠ 128 →
      Sfss.HashType.tryFrom s = .error Sfss.HashError.InvalidHash) := by
  refine ⟨fun h => ?_, fun h => ?_, fun h => ?_, fun h => ?_,
    fun h32 h40 h64 h128 => ?_⟩ <;>
    simp [Sfss.HashType.tryFrom, *]

/-- C2 witness: concrete evaluation at a length-32 string. -/
theorem Sfss.hashType_tryFrom_spec_witness :
    Sfss.HashType.tryFrom "0123456789abcdef0123456789abcdef" = .ok Sfss.HashType.MD5 :=
  (Sfss.hashType_tryFrom_spec "0123456789abcdef0123456789abcdef").1 (by decide)

/-- C7: `HashMode::from_autoupdate_config` precedence: a bare URL gives
`Download`; in a hash-extraction object an explicit mapped mode tag
(`Download`/`Fosshub`/`Sourceforge`/`Metalink`/`Rdf`) wins regardless of
the location fields; otherwise `regex`/`find` give `Extract`,
`jsonpath`/`jp` give `Json`, `xpath` gives `Xpath`, in that order; and
with none of these fields present the mode is `HashUrl`. -/
theorem Sfss.from_autoupdate_config_spec (cfg : Sfss.AutoupdateConfig)
    (hc : Sfss.HashExtraction) :
    (∀ u, cfg.hash = some (.Url u) →
      Sfss.HashMode.from_autoupdate_config cfg = .value (some .Download)) ∧
    (cfg.hash = some (.HashExtraction hc) →
      ((hc.mode = some .Download →
          Sfss.HashMode.from_autoupdate_config cfg = .value (some .Download)) ∧
        (hc.mode = some .Fosshub →
          Sfss.HashMode.from_autoupdate_config cfg = .value (some .Fosshub)) ∧
        (hc.mode = some .Sourceforge →
          Sfss.HashMode.from_autoupdate_config cfg = .value (some .Sourceforge)) ∧
        (hc.mode = some .Metalink →
          Sfss.HashMode.from_autoupdate_config cfg = .value (some .Metalink)) ∧
        (hc.mode = some .Rdf →
          Sfss.HashMode.from_autoupdate_config cfg = .value (some .Rdf))) ∧
      (hc.mode = none →
        (∀ r, hc.regex = some r →
          Sfss.HashMode.from_autoupdate_config cfg = .value (some (.Extract r))) ∧
        (∀ r, hc.regex = none → hc.find = some r →
          Sfss.HashMode.from_autoupdate_config cfg = .value (some (.Extract r))) ∧
        (∀ p, hc.regex = none → hc.find = none → hc.jsonpath = some p →
          Sfss.HashMode.from_autoupdate_config cfg = .value (some (.Json p))) ∧
        (∀ p, hc.regex = none → hc.find = none → hc.jsonpath = none →
          hc.jp = some p →
          Sfss.HashMode.from_autoupdate_config cfg = .value (some (.Json p))) ∧
        (∀ p, hc.regex = none → hc.find = none → hc.jsonpath = none →
          hc.jp = none → hc.xpath = some p →
          Sfss.HashMode.from_autoupdate_config cfg = .value (some (.Xpath p))) ∧
        (hc.regex = none → hc.find = none → hc.jsonpath = none →
          hc.jp = none → hc.xpath = none →
          Sfss.HashMode.from_autoupdate_config cfg = .value (some .HashUrl)))) := by
  constructor
  · intro u hu
    simp [Sfss.HashMode.from_autoupdate_config, hu]
  · intro hcfg
    constructor
    · refine ⟨fun h => ?_, fun h => ?_, fun h => ?_, fun h => ?_, fun h => ?_⟩ <;>
        simp [Sfss.HashMode.from_autoupdate_config, hcfg, h]
    · intro hmode
      refine ⟨fun r h1 => ?_, fun r h1 h2 => ?_, fun p h1 h2 h3 => ?_,
        fun p h1 h2 h3 h4 => ?_, fun p h1 h2 h3 h4 h5 => ?_,
        fun h1 h2 h3 h4 h5 => ?_⟩ <;>
        simp [Sfss.HashMode.from_autoupdate_config, hcfg, hmode, h1, *]

/-- C7 witness: a config whose hash field is a bare URL resolves to
`Download`, and an extraction object with an explicit `Fosshub` tag and
a competing `regex` field still resolves to `Fosshub`. -/
theorem Sfss.from_autoupdate_config_spec_witness :
    Sfss.HashMode.from_autoupdate_config
        { hash := some (.Url "https://example.com/checksums.txt") } =
      .value (some .Download) ∧
    Sfss.HashMode.from_autoupdate_config
        { hash := some (.HashExtraction
            { mode := some .Fosshub, regex := some "md5:$md5" }) } =
      .value (some .Fosshub) :=
  ⟨(Sfss.from_autoupdate_config_spec
      { hash := some (.Url "https://example.com/checksums.txt") } {}).1
      "https://example.com/checksums.txt" rfl,
    ((Sfss.from_autoupdate_config_spec
      { hash := some (.HashExtraction
          { mode := some .Fosshub, regex := some "md5:$md5" }) }
      { mode := some .Fosshub, regex := some "md5:$md5" }).2 rfl).1.2.1 rfl⟩

/-- C3: in `HashMode::from_manifest` the vendor URL pattern checks run
before any inspection of the autoupdate config: when the merged install
URL matches the fosshub pattern the mode is `Fosshub`, and when it
matches the sourceforge pattern (and not fosshub) the mode is
`Sourceforge`, regardless of the autoupdate config's contents —
in particular with no hash config present at all. -/
theorem Sfss.from_manifest_vendor_first (fosshubIsMatch sourceforgeIsMatch : String → Bool)
    (m : Sfss.Manifest) (url : String)
    (hurl : (Sfss.mergeDefaultInstall m.architecture m.install_config).url = some url) :
    (fosshubIsMatch url = true →
      Sfss.HashMode.from_manifest fosshubIsMatch sourceforgeIsMatch m =
        .value (some .Fosshub)) ∧
    (fosshubIsMatch url = false → sourceforgeIsMatch url = true →
      Sfss.HashMode.from_manifest fosshubIsMatch sourceforgeIsMatch m =
        .value (some .Sourceforge)) := by
  constructor
  · intro hf
    simp [Sfss.HashMode.from_manifest, hurl, hf]
  · intro hf hs
    simp [Sfss.HashMode.from_manifest, hurl, hf, hs]

/-- C3 witness: a manifest whose install URL matches the fosshub
pattern and whose autoupdate section has no hash config at all still
resolves to `Fosshub` (not `MissingHashExtraction`, not a panic). -/
theorem Sfss.from_manifest_vendor_first_witness :
    Sfss.HashMode.from_manifest
        (fun u => u = "https://www.fosshub.com/App.html/app.exe")
        (fun _ => false)
        { install_config := { url := some "https://www.fosshub.com/App.html/app.exe" }
          autoupdate := some {} } =
      .value (some .Fosshub) :=
  (Sfss.from_manifest_vendor_first
      (fun u => u = "https://www.fosshub.com/App.html/app.exe")
      (fun _ => false)
      { install_config := { url := some "https://www.fosshub.com/App.html/app.exe" }
        autoupdate := some {} }
      "https://www.fosshub.com/App.html/app.exe" rfl).1 (by decide)

/-- C10: when the merged install URL matches neither vendor pattern and
the manifest has no `autoupdate` section at all, `HashMode::from_manifest`
panics (the `.unwrap()` on the missing autoupdate config) instead of
returning `None`. -/
theorem Sfss.from_manifest_unwrap_panic
    (fosshubIsMatch sourceforgeIsMatch : String → Bool)
    (m : Sfss.Manifest) (url : String)
    (hurl : (Sfss.mergeDefaultInstall m.architecture m.install_config).url = some url)
    (hf : fosshubIsMatch url = false) (hs : sourceforgeIsMatch url = false)
    (hau : m.autoupdate = none) :
    Sfss.HashMode.from_manifest fosshubIsMatch sourceforgeIsMatch m =
      .panicked "called `Option::unwrap()` on a `None` value" := by
  simp [Sfss.HashMode.from_manifest, hurl, hf, hs, hau]

/-- C10 witness: concrete manifest with a non-vendor URL and no
autoupdate section. -/
theorem Sfss.from_manifest_unwrap_panic_witness :
    Sfss.HashMode.from_manifest (fun _ => false) (fun _ => false)
        { install_config := { url := some "https://example.com/app.exe" } } =
      .panicked "called `Option::unwrap()` on a `None` value" :=
  Sfss.from_manifest_unwrap_panic (fun _ => false) (fun _ => false)
    { install_config := { url := some "https://example.com/app.exe" } }
    "https://example.com/app.exe" rfl rfl rfl rfl

/-- C9: in the text extractor the regex-fragment names (md5, sha1,
sha256, sha512, checksum, base64) are substituted first with their raw
unescaped character-class values, and only afterwards are the
caller-supplied substitutions applied in literal (escaped) mode; an
empty location expression is replaced by `^\s*([a-fA-F0-9]+)\s*$`
before substitution.  The concrete conjuncts exhibit the default, the
raw-fragment/escaped-literal split, and that a caller entry cannot
reach a fragment placeholder (it is already gone). -/
theorem Sfss.parse_text_substitution_order :
    (∀ t subs, Sfss.buildPattern t subs =
      Sfss.intoSubstituted
        (Sfss.intoSubstituted (if t = "" then Sfss.defaultTextPattern else t)
          Sfss.regexTemplates false)
        subs true) ∧
    Sfss.buildPattern "" [("version", "1.2")] = "^\\s*([a-fA-F0-9]+)\\s*$" ∧
    Sfss.buildPattern "$version$sha256" [("version", "1.2")] =
      "1\\.2([a-fA-F0-9]\x7b64\x7d)" ∧
    Sfss.buildPattern "$sha256" [("sha256", "XYZ")] =
      "([a-fA-F0-9]\x7b64\x7d)" :=
  ⟨fun _ _ => rfl, rfl, rfl, rfl⟩

/-- C5: when the substituted extraction regex yields no second match,
`parse_text` falls through to the filename-correlation fallback, and
then to the metalink fallback, in that order (the `orElse` on their
second matches); and when everything fails, `Hash::from_text` reports
`NotFound`. -/
theorem Sfss.parse_text_fallback_chain (E : Sfss.RegexEngine)
    (source regex : String) (subs : List (String × String))
    (ms fms mms : List String)
    (h1 : E.findAll (Sfss.buildPattern regex subs) source = some ms)
    (h2 : (ms.map (fun h => Sfss.rustReplace h " " "")).get? 1 = none)
    (h3 : E.findAll (Sfss.filenamePattern subs) source = some fms)
    (h4 : E.findAll Sfss.metalinkPattern source = some mms) :
    Sfss.parse_text E source subs regex =
      .ok (((fms.get? 1).orElse fun _ => mms.get? 1).map Sfss.rustToLower) ∧
    (fms.get? 1 = none → mms.get? 1 = none →
      Sfss.from_text E source subs regex = .error .NotFound) := by
  have hmain : ∀ o : Option String, fms.get? 1 = o →
      Sfss.parse_text E source subs regex =
        .ok (((o).orElse fun _ => mms.get? 1).map Sfss.rustToLower) := by
    intro o ho
    unfold Sfss.parse_text
    rw [h1]
    simp only [h2, h3, h4, ho]
    cases o <;> simp [Option.orElse, Except.map]
  constructor
  · exact hmain _ rfl
  · intro hf hm
    have hp : Sfss.parse_text E source subs regex = .ok none := by
      rw [hmain none hf]
      simp only [hm]
      rfl
    unfold Sfss.from_text
    rw [hp]

/-- C5 witness: an engine that finds no matches anywhere makes
`parse_text` return no hash and `from_text` report `NotFound`. -/
theorem Sfss.parse_text_fallback_chain_witness :
    Sfss.parse_text ⟨fun _ _ => some []⟩ "" [] "" = .ok none ∧
    Sfss.from_text ⟨fun _ _ => some []⟩ "" [] "" = .error .NotFound := by
  have h := Sfss.parse_text_fallback_chain ⟨fun _ _ => some []⟩ "" "" [] [] [] []
    rfl rfl rfl rfl
  exact ⟨h.1, h.2 rfl rfl⟩

/-- C6 (bug evidence): the second match is the base64 encoding of the
32-byte digest `0x01 × 32`; the heuristic accepts it and it is decoded,
but the bytes are rendered with `format!("{byte:x}")` (no zero padding,
unlike `Hash::compute`'s `{byte:02x}`), so the result is the 32-character
string `"1" × 32` instead of the 64-character `"01" × 32`. -/
theorem Sfss.parse_text_base64_one_digit_hex :
    Sfss.base64Decode "AQEBAQEBAQEBAQEBAQEBAQEBAQEBAQEBAQEBAQEBAQE=" =
      some (List.replicate 32 1) ∧
    Sfss.parse_text
        ⟨fun _ _ => some ["first", "AQEBAQEBAQEBAQEBAQEBAQEBAQEBAQEBAQEBAQEBAQE="]⟩
        "" [] "" =
      .ok (some "11111111111111111111111111111111") ∧
    Sfss.rustLen "11111111111111111111111111111111" = 32 := by
  refine ⟨by decide, ?_, by decide⟩
  rfl

/-- Shared helper: a successful `HashType::try_from` means the string's
length is a known hash length matching the returned tag. -/
theorem Sfss.tryFrom_ok_invariant (s : String) (t : Sfss.HashType)
    (h : Sfss.HashType.tryFrom s = .ok t) :
    Sfss.hashLengthInvariant ⟨s, t⟩ := by
  unfold Sfss.HashType.tryFrom at h
  unfold Sfss.hashLengthInvariant
  split_ifs at h with h64 h40 h32 h128 <;> simp_all

/-- C1 (amended): hashes built by the text, JSON and XPath paths are
validated — any `Ok` hash satisfies the length/algorithm invariant —
but the `HashUrl` short-circuit of `get_for_app` returns the fetched
body verbatim tagged with the default `SHA256`, and `from_rdf` tags an
invalid-length extracted string with the default `SHA256` instead of
failing with `InvalidHash`. -/
theorem Sfss.hash_construction_validation :
    (∀ (E : Sfss.RegexEngine) (src : String) (subs : List (String × String))
        (r : String) (h : Sfss.Hash),
      Sfss.from_text E src subs r = .ok h → Sfss.hashLengthInvariant h) ∧
    (∀ (p : Except Sfss.HashError String) (h : Sfss.Hash),
      Sfss.from_json p = .ok h → Sfss.hashLengthInvariant h) ∧
    (∀ (p : Except Sfss.HashError String) (h : Sfss.Hash),
      Sfss.find_hash_in_xml p = .ok h → Sfss.hashLengthInvariant h) ∧
    (∀ s : String, Sfss.HashType.tryFrom s = .error .InvalidHash →
      Sfss.from_rdf (.ok s) = .ok ⟨s, .SHA256⟩) ∧
    (∀ (E : Sfss.Ext) (m : Sfss.Manifest) (au : Sfss.Autoupdate)
        (url mu u2 body : String) (hx : Sfss.HashExtractionOrArrayOfHashExtractions)
        (he : Sfss.HashExtraction) (cu : String),
      m.autoupdate = some au →
      Sfss.HashMode.from_manifest E.fosshubIsMatch E.sourceforgeIsMatch m =
        .value (some .HashUrl) →
      (Sfss.mergeDefaultInstall m.architecture m.install_config).url = some url →
      E.parseUrl url = some mu →
      (Sfss.mergeDefaultAutoupdate au.architecture au.default_config).hash = some hx →
      hx.as_object = some he →
      he.url = some cu →
      E.parseUrl (Sfss.intoSubstituted cu (Sfss.buildSubmap m.version mu) false) =
        some u2 →
      E.fetch u2 = some body →
      Sfss.get_for_app E m = .value (.ok ⟨body, .SHA256⟩)) := by
  refine ⟨?_, ?_, ?_, ?_, ?_⟩
  · intro E src subs r h hf
    unfold Sfss.from_text at hf
    split at hf
    · cases hf
    · cases hf
    · rename_i hash hpe
      split at hf
      · cases hf
      · rename_i t ht
        cases hf
        exact Sfss.tryFrom_ok_invariant hash t ht
  · intro p h hf
    unfold Sfss.from_json at hf
    split at hf
    · cases hf
    · rename_i hash
      split at hf
      · cases hf
      · rename_i t ht
        cases hf
        exact Sfss.tryFrom_ok_invariant hash t ht
  · intro p h hf
    unfold Sfss.find_hash_in_xml at hf
    split at hf
    · cases hf
    · rename_i hash
      split at hf
      · cases hf
      · rename_i t ht
        cases hf
        exact Sfss.tryFrom_ok_invariant hash t ht
  · intro s h
    simp [Sfss.from_rdf, h]
  · intro E m au url mu u2 body hx he cu hau hfm hurl hmu hhash hobj hcu hu2 hbody
    unfold Sfss.get_for_app
    rw [hau]
    simp only [hfm, hurl, hmu]
    simp only [Sfss.resolveSourceUrl, hhash, hobj, hcu, hu2]
    simp only [hbody]
    rfl

/-- C1 (amended) witness: a 64-character extracted JSON hash is
accepted and tagged `SHA256`, satisfying the invariant. -/
theorem Sfss.hash_construction_validation_witness :
    Sfss.hashLengthInvariant
      ⟨"b94d27b9934d3e08a52e52d7da7dabfac484efe37a5380ee9088f7ace2efcde9",
        .SHA256⟩ :=
  Sfss.hash_construction_validation.2.1
    (.ok "b94d27b9934d3e08a52e52d7da7dabfac484efe37a5380ee9088f7ace2efcde9")
    ⟨"b94d27b9934d3e08a52e52d7da7dabfac484efe37a5380ee9088f7ace2efcde9", .SHA256⟩
    rfl

/-- The concrete collaborators for the C1 counterexample: no vendor
match, identity URL parsing, an 11-byte response body. -/
def Sfss.hashUrlExt : Sfss.Ext where
  fosshubIsMatch := fun _ => false
  sourceforgeIsMatch := fun _ => false
  fosshubFilename := fun _ => none
  sourceforgeCaptures := fun _ => none
  parseUrl := fun s => some s
  fetch := fun _ => some "nothashbody"
  regex := ⟨fun _ _ => some []⟩
  jsonExtract := fun _ _ _ => .error .JsonError
  xmlExtract := fun _ _ _ => .error .XMLError
  rdfExtract := fun _ _ => .error ()

/-- The concrete manifest for the C1 counterexample: a hash-extraction
object with a URL but no mode or location fields, so the mode resolves
to `HashUrl`. -/
def Sfss.hashUrlManifest : Sfss.Manifest where
  version := "1.0"
  install_config := { url := some "https://example.com/app.exe" }
  autoupdate := some
    { default_config :=
        { hash := some (.HashExtraction { url := some "https://example.com/hash.txt" }) } }

/-- C1 counterexample: an execution path of `get_for_app` (the
`HashUrl` short-circuit) returns `Ok` with an 11-byte hash string —
a length that maps to no algorithm and that `HashType::try_from` would
reject with `InvalidHash` — tagged with the default `SHA256`. -/
theorem Sfss.get_for_app_hashurl_unvalidated :
    Sfss.get_for_app Sfss.hashUrlExt Sfss.hashUrlManifest =
      .value (.ok ⟨"nothashbody", .SHA256⟩) ∧
    Sfss.rustLen "nothashbody" = 11 ∧
    Sfss.HashType.tryFrom "nothashbody" = .error .InvalidHash :=
  ⟨rfl, rfl, rfl⟩

/-- C4: for a manifest resolved to `Fosshub` or `Sourceforge`, the
pipeline rewrites the source URL to the provider's checksum listing
page (for fosshub this is the manifest URL itself), synthesizes the
location regex, and downgrades the mode to `Extract(generated_regex)`;
for sourceforge the rewritten URL is
`https://sourceforge.net/projects/{project}/files/{file}` with fragment
and trailing filename stripped; the pipeline then fetches the rewritten
URL and extracts through the text path with the generated regex. -/
theorem Sfss.vendor_rewrite_spec :
    (∀ (E : Sfss.Ext) (mu : String) (cfg : Sfss.AutoupdateConfig)
        (submap : List (String × String)) (filename : String),
      E.fosshubFilename mu = some (some filename) →
      Sfss.resolveSourceUrl E .Fosshub mu cfg submap =
        .ok (mu, .Extract (filename ++ Sfss.fosshubRegexSuffix))) ∧
    (∀ (E : Sfss.Ext) (mu : String) (cfg : Sfss.AutoupdateConfig)
        (submap : List (String × String)) (project file parsed : String),
      E.sourceforgeCaptures mu = some (some project, some file) →
      E.parseUrl
          ("https://sourceforge.net/projects/" ++ project ++ "/files/" ++ file) =
        some parsed →
      Sfss.resolveSourceUrl E .Sourceforge mu cfg submap =
        .ok (Sfss.stripFilename (Sfss.stripFragment parsed),
          .Extract Sfss.sourceforgeHashRegex)) ∧
    (∀ (E : Sfss.Ext) (m : Sfss.Manifest) (au : Sfss.Autoupdate)
        (url mu project file parsed body : String),
      m.autoupdate = some au →
      Sfss.HashMode.from_manifest E.fosshubIsMatch E.sourceforgeIsMatch m =
        .value (some .Sourceforge) →
      (Sfss.mergeDefaultInstall m.architecture m.install_config).url = some url →
      E.parseUrl url = some mu →
      E.sourceforgeCaptures mu = some (some project, some file) →
      E.parseUrl
          ("https://sourceforge.net/projects/" ++ project ++ "/files/" ++ file) =
        some parsed →
      E.fetch (Sfss.stripFilename (Sfss.stripFragment parsed)) = some body →
      Sfss.get_for_app E m =
        .value (Sfss.from_text E.regex body (Sfss.buildSubmap m.version mu)
          Sfss.sourceforgeHashRegex)) := by
  refine ⟨?_, ?_, ?_⟩
  · intro E mu cfg submap filename hcap
    simp [Sfss.resolveSourceUrl, hcap]
  · intro E mu cfg submap project file parsed hcap hparse
    simp [Sfss.resolveSourceUrl, hcap, hparse]
  · intro E m au url mu project file parsed body hau hfm hurl hmu hcap hparse hbody
    unfold Sfss.get_for_app
    rw [hau]
    simp only [hfm, hurl, hmu]
    simp only [Sfss.resolveSourceUrl, hcap, hparse]
    simp only [hbody]
    rfl

/-- C4 witness: concrete fosshub rewrite at a captured filename. -/
theorem Sfss.vendor_rewrite_spec_witness :
    Sfss.resolveSourceUrl
        { Sfss.hashUrlExt with fosshubFilename := fun _ => some (some "app.exe") }
        .Fosshub "https://www.fosshub.com/App.html/app.exe" {} [] =
      .ok ("https://www.fosshub.com/App.html/app.exe",
        .Extract ("app.exe" ++ Sfss.fosshubRegexSuffix)) :=
  Sfss.vendor_rewrite_spec.1
    { Sfss.hashUrlExt with fosshubFilename := fun _ => some (some "app.exe") }
    "https://www.fosshub.com/App.html/app.exe" {} [] "app.exe" rfl

/-- C8: a manifest whose merged install URL matches neither vendor
pattern and whose merged autoupdate config has no `hash` field fails
with `MissingHashExtraction` — a `value` outcome (no panic), not a
default mode. -/
theorem Sfss.get_for_app_missing_hash_extraction (E : Sfss.Ext)
    (m : Sfss.Manifest) (au : Sfss.Autoupdate) (url : String)
    (hau : m.autoupdate = some au)
    (hurl : (Sfss.mergeDefaultInstall m.architecture m.install_config).url = some url)
    (hf : E.fosshubIsMatch url = false)
    (hs : E.sourceforgeIsMatch url = false)
    (hhash : (Sfss.mergeDefaultAutoupdate au.architecture au.default_config).hash = none) :
    Sfss.get_for_app E m = .value (.error .MissingHashExtraction) := by
  unfold Sfss.get_for_app
  rw [hau]
  have hfm : Sfss.HashMode.from_manifest E.fosshubIsMatch E.sourceforgeIsMatch m =
      .value none := by
    unfold Sfss.HashMode.from_manifest
    rw [hau]
    simp [hurl, hf, hs, Sfss.HashMode.from_autoupdate_config, hhash]
  simp [hfm]

/-- C8 witness: a concrete manifest with a non-vendor URL and an
autoupdate section with no hash field. -/
theorem Sfss.get_for_app_missing_hash_extraction_witness :
    Sfss.get_for_app Sfss.hashUrlExt
        { install_config := { url := some "https://example.com/app.exe" }
          autoupdate := some { default_config := { url := some "https://example.com" } } } =
      .value (.error .MissingHashExtraction) :=
  Sfss.get_for_app_missing_hash_extraction Sfss.hashUrlExt
    { install_config := { url := some "https://example.com/app.exe" }
      autoupdate := some { default_config := { url := some "https://example.com" } } }
    { default_config := { url := some "https://example.com" } }
    "https://example.com/app.exe" rfl rfl rfl rfl rfl
